import Mathlib

set_option maxRecDepth 100000

/-!
Verification of the prompt-registry / renderer / span-filter core of the
`k8s-slm-log-agent` repository (workloads/log-analyzer).

The Python source is embedded shallowly:

* `hashlib.sha256(...).hexdigest()` is embedded as an executable SHA-256
  over byte lists (`sha256Hex`), so hash equalities and inequalities on
  concrete inputs can be settled by evaluation.
* `dict[str, str]` values are association lists with Python dict update
  semantics (`dictInsert`, `dictMerge`).
* `json.dumps(data, sort_keys=True, separators=(",", ":"))` is embedded
  for the two value shapes the source actually hashes — string-valued
  dicts (`merged_vars`) and role/content message lists (`messages`) —
  including Python's `ensure_ascii` string escaping and key sorting.
* The Jinja2 `StrictUndefined` rendering pass is embedded on the template
  fragment the source exercises: literal text with named
  placeholders, failing on the first placeholder absent from the
  variable map.
* File-system reading and YAML parsing are represented by their results:
  a directory is `Option (List PromptFile)` (`none` = unreadable or
  missing, for which `pathlib.Path.glob` swallows the error and yields
  no entries, so loading succeeds with an empty registry), a
  file is a stem plus `Option RawPrompt` (`none` = parse failure), and a
  `RawPrompt` holds `Option`-valued fields (`none` = required key absent,
  which in the source raises `KeyError`).
* `datetime.utcnow()` in `list_prompt_metadata` is made explicit as a
  clock argument.
-/

namespace LogAgent

deriving instance DecidableEq for Except

/- ### Bytes, hex, UTF-8 -/

/-- Truncate to a 32-bit word, as Python/C SHA-256 arithmetic does. -/
def w32 (n : Nat) : Nat := n % 4294967296

/-- Rotate a 32-bit word right by `k` bits. -/
def rotr (k x : Nat) : Nat := w32 ((x >>> k) ||| (x <<< (32 - k)))

/-- Hex digit character for a value in `0..15` (lowercase, as `hexdigest`). -/
def hexDigit (n : Nat) : Char :=
  if n < 10 then Char.ofNat (48 + n) else Char.ofNat (87 + n)

/-- Lowercase hex rendering of a byte list, two digits per byte. -/
def bytesToHex (bs : List Nat) : String :=
  String.mk (bs.foldr (fun b acc => hexDigit (b / 16 % 16) :: hexDigit (b % 16) :: acc) [])

/-- UTF-8 encoding of one character. -/
def utf8EncodeChar (c : Char) : List Nat :=
  let n := c.toNat
  if n < 128 then [n]
  else if n < 2048 then [192 + (n >>> 6), 128 + (n % 64)]
  else if n < 65536 then [224 + (n >>> 12), 128 + ((n >>> 6) % 64), 128 + (n % 64)]
  else [240 + (n >>> 18), 128 + ((n >>> 12) % 64), 128 + ((n >>> 6) % 64), 128 + (n % 64)]

/-- UTF-8 encoding of a string, as Python's `str.encode("utf-8")`. -/
def utf8Encode (s : String) : List Nat :=
  s.data.foldr (fun c acc => utf8EncodeChar c ++ acc) []

/- ### SHA-256 (FIPS 180-4), executable over byte lists -/

/-- The 64 SHA-256 round constants. -/
def shaK : List Nat :=
  [1116352408, 1899447441, 3049323471, 3921009573, 961987163, 1508970993,
   2453635748, 2870763221, 3624381080, 310598401, 607225278, 1426881987,
   1925078388, 2162078206, 2614888103, 3248222580, 3835390401, 4022224774,
   264347078, 604807628, 770255983, 1249150122, 1555081692, 1996064986,
   2554220882, 2821834349, 2952996808, 3210313671, 3336571891, 3584528711,
   113926993, 338241895, 666307205, 773529912, 1294757372, 1396182291,
   1695183700, 1986661051, 2177026350, 2456956037, 2730485921, 2820302411,
   3259730800, 3345764771, 3516065817, 3600352804, 4094571909, 275423344,
   430227734, 506948616, 659060556, 883997877, 958139571, 1322822218,
   1537002063, 1747873779, 1955562222, 2024104815, 2227730452, 2361852424,
   2428436474, 2756734187, 3204031479, 3329325298]

/-- The initial SHA-256 state. -/
def shaH0 : List Nat :=
  [1779033703, 3144134277, 1013904242, 2773480762,
   1359893119, 2600822924, 528734635, 1541459225]

/-- Pack bytes into 32-bit big-endian words. -/
def bytesToWords : List Nat → List Nat
  | b0 :: b1 :: b2 :: b3 :: rest =>
      (((b0 <<< 8 ||| b1) <<< 8 ||| b2) <<< 8 ||| b3) :: bytesToWords rest
  | _ => []

/-- Big-endian bytes of a number, `k` bytes wide. -/
def natToBytesBE : Nat → Nat → List Nat
  | 0, _ => []
  | k + 1, n => natToBytesBE k (n >>> 8) ++ [n % 256]

/-- Small sigma-0 message-schedule function. -/
def ssig0 (x : Nat) : Nat := (rotr 7 x) ^^^ (rotr 18 x) ^^^ (x >>> 3)

/-- Small sigma-1 message-schedule function. -/
def ssig1 (x : Nat) : Nat := (rotr 17 x) ^^^ (rotr 19 x) ^^^ (x >>> 10)

/-- Extend a 16-word block schedule by `fuel` further words. -/
def shaExtend : Nat → List Nat → List Nat
  | 0, w => w
  | fuel + 1, w =>
      let t := w32 (ssig1 (w.getD (w.length - 2) 0) + w.getD (w.length - 7) 0
        + ssig0 (w.getD (w.length - 15) 0) + w.getD (w.length - 16) 0)
      shaExtend fuel (w ++ [t])

/-- One SHA-256 compression round on the 8-word working state. -/
def shaRound (st : List Nat) (kw : Nat × Nat) : List Nat :=
  match st with
  | [a, b, c, d, e, f, g, h] =>
      let s1 := (rotr 6 e) ^^^ (rotr 11 e) ^^^ (rotr 25 e)
      let ch := (e &&& f) ^^^ ((e ^^^ 4294967295) &&& g)
      let t1 := w32 (h + s1 + ch + kw.1 + kw.2)
      let s0 := (rotr 2 a) ^^^ (rotr 13 a) ^^^ (rotr 22 a)
      let maj := (a &&& b) ^^^ (a &&& c) ^^^ (b &&& c)
      let t2 := w32 (s0 + maj)
      [w32 (t1 + t2), a, b, c, w32 (d + t1), e, f, g]
  | other => other

/-- Compress one 64-byte chunk into the hash state. -/
def shaChunk (h : List Nat) (chunk : List Nat) : List Nat :=
  let w := shaExtend 48 (bytesToWords chunk)
  let st := (w.zip shaK).foldl shaRound h
  (h.zip st).map (fun p => w32 (p.1 + p.2))

/-- Fold `fuel` 64-byte chunks of `bs` into the state. -/
def shaChunks : Nat → List Nat → List Nat → List Nat
  | 0, h, _ => h
  | fuel + 1, h, bs => shaChunks fuel (shaChunk h (bs.take 64)) (bs.drop 64)

/-- SHA-256 padding: `0x80`, zeros to 56 mod 64, 8-byte big-endian bit length. -/
def shaPad (msg : List Nat) : List Nat :=
  let len := msg.length
  let zeros := (64 + 56 - ((len + 1) % 64)) % 64
  msg ++ [128] ++ List.replicate zeros 0 ++ natToBytesBE 8 (len * 8)

/-- SHA-256 digest (32 bytes) of a byte-list message. -/
def sha256Bytes (msg : List Nat) : List Nat :=
  let padded := shaPad msg
  ((shaChunks (padded.length / 64) shaH0 padded).map (natToBytesBE 4)).flatten

/-- SHA-256 lowercase hex digest of a byte-list message, as
`hashlib.sha256(b).hexdigest()`. -/
def sha256Hex (msg : List Nat) : String := bytesToHex (sha256Bytes msg)

/- ### Python string operations used by `registry.py` -/

/-- Whitespace in the sense of Python's `str.strip()` (the ASCII part:
space, tab, newline, carriage return, vertical tab, form feed). -/
def isPyWhitespace (c : Char) : Bool :=
  c == ' ' || c == '\t' || c == '\n' || c == '\r' || c == '\x0b' || c == '\x0c'

/-- Python's `content.replace("\r\n", "\n")`: left-to-right,
non-overlapping replacement. -/
def replaceCRLFChars : List Char → List Char
  | '\r' :: '\n' :: rest => '\n' :: replaceCRLFChars rest
  | c :: rest => c :: replaceCRLFChars rest
  | [] => []

/-- Trim Python whitespace from both ends of a character list. -/
def stripChars (cs : List Char) : List Char :=
  ((cs.dropWhile isPyWhitespace).reverse.dropWhile isPyWhitespace).reverse

/-- Python's `s.replace("\r\n", "\n").strip()`, the canonicalization
applied by `sha256_text`. -/
def canonText (s : String) : String :=
  String.mk (stripChars (replaceCRLFChars s.data))

/-- Source `sha256_text(content)`: SHA-256 hex of the UTF-8 bytes of the
content after CRLF normalization and stripping
(`registry.py` lines 21-24). -/
def sha256_text (content : String) : String :=
  sha256Hex (utf8Encode (canonText content))

/-- The template hash computed by `load_prompt_file`:
`sha256_text(raw["system"] + raw["user"])` (`registry.py` lines 52-54). -/
def templateHashOf (systemBody userBody : String) : String :=
  sha256_text (systemBody ++ userBody)

/- ### Python dicts as association lists -/

/-- A Python `dict[str, str]`: insertion-ordered pairs, keys unique in
any dict actually built by Python. -/
abbrev Dict := List (String × String)

/-- The keys of a dict in order, as `list(d.keys())`. -/
def dictKeys (d : Dict) : List String := d.map Prod.fst

/-- Python dict item assignment `d[k] = v`: overwrite in place if the key
exists, else append. -/
def dictInsert (d : Dict) (k v : String) : Dict :=
  if d.any (fun p => p.1 == k) then
    d.map (fun p => if p.1 == k then (k, v) else p)
  else d ++ [(k, v)]

/-- Python `{**a, **b}`: start from `a`, then write every entry of `b`,
so `b` wins on key collisions (`registry.py` line 157). -/
def dictMerge (a b : Dict) : Dict :=
  b.foldl (fun d p => dictInsert d p.1 p.2) a

/- ### Canonical JSON, as `json.dumps(·, sort_keys=True, separators=(",", ":"))`

The source's `sha256_json` serializes with `json.dumps(data,
sort_keys=True, separators=(",", ":"))` and hashes the UTF-8 bytes.
`render_prompt` applies it to exactly two value shapes: the merged
string-valued variables dict, and the two-element `messages` list of
`{role, content}` dicts; the embedding provides the serializer at those
shapes, including CPython's default `ensure_ascii` escaping. -/

/-- Four hex digits of a code unit, for `\uXXXX` escapes. -/
def hex4 (n : Nat) : List Char :=
  [hexDigit (n / 4096 % 16), hexDigit (n / 256 % 16), hexDigit (n / 16 % 16), hexDigit (n % 16)]

/-- JSON escape of one character, per CPython `json.dumps` with
`ensure_ascii=True`: short escapes for the two-character forms, `\uXXXX`
(with surrogate pairs) for everything outside `0x20..0x7e`. -/
def jsonEscapeChar (c : Char) : List Char :=
  if c == '"' then ['\\', '"']
  else if c == '\\' then ['\\', '\\']
  else if c == '\n' then ['\\', 'n']
  else if c == '\t' then ['\\', 't']
  else if c == '\r' then ['\\', 'r']
  else if c == '\x08' then ['\\', 'b']
  else if c == '\x0c' then ['\\', 'f']
  else if 32 ≤ c.toNat ∧ c.toNat ≤ 126 then [c]
  else if c.toNat < 65536 then '\\' :: 'u' :: hex4 c.toNat
  else
    let m := c.toNat - 65536
    ('\\' :: 'u' :: hex4 (55296 + m / 1024)) ++ ('\\' :: 'u' :: hex4 (56320 + m % 1024))

/-- A JSON string literal: quotes around the escaped characters. -/
def jsonQuote (s : String) : String :=
  String.mk ('"' :: s.data.foldr (fun c acc => jsonEscapeChar c ++ acc) ['"'])

/-- Join already-serialized items with the `","` item separator. -/
def joinComma : List String → String
  | [] => ""
  | [x] => x
  | x :: rest => x ++ "," ++ joinComma rest

/-- Code-point lexicographic order on character lists, the order Python
uses to compare strings. -/
def charListLt : List Char → List Char → Bool
  | [], [] => false
  | [], _ :: _ => true
  | _ :: _, [] => false
  | a :: as, b :: bs => a.toNat < b.toNat || (a == b && charListLt as bs)

/-- Python's `a < b` on strings: code-point lexicographic. -/
def strLtb (a b : String) : Bool := charListLt a.data b.data

/-- Insert a pair into a key-sorted list of pairs, keeping it sorted
(ties keep input order, as Python's stable `sorted`). -/
def insertSorted (p : String × String) : Dict → Dict
  | [] => [p]
  | q :: rest => if strLtb p.1 q.1 then p :: q :: rest else q :: insertSorted p rest

/-- Sort pairs by key, as `sort_keys=True` orders a dict's items. -/
def sortPairs : Dict → Dict
  | [] => []
  | p :: rest => insertSorted p (sortPairs rest)

/-- `json.dumps(d, sort_keys=True, separators=(",", ":"))` for a
string-valued dict. -/
def jsonDumpsDict (d : Dict) : String :=
  "\x7b" ++ joinComma ((sortPairs d).map (fun p => jsonQuote p.1 ++ ":" ++ jsonQuote p.2)) ++ "\x7d"

/-- A chat message, one element of the source's `messages` list. -/
structure Message where
  role : String
  content : String
deriving DecidableEq

/-- The dict underlying one message: the source builds
`{"role": ..., "content": ...}` in that insertion order. -/
def Message.toDict (m : Message) : Dict := [("role", m.role), ("content", m.content)]

/-- `json.dumps(messages, sort_keys=True, separators=(",", ":"))` for a
list of message dicts. -/
def jsonDumpsMessages (ms : List Message) : String :=
  "[" ++ joinComma (ms.map (fun m => jsonDumpsDict m.toDict)) ++ "]"

/-- Source `sha256_json` (`registry.py` lines 27-32) at the merged
variables dict: SHA-256 hex of the canonical JSON. -/
def sha256_json_dict (d : Dict) : String :=
  sha256Hex (utf8Encode (jsonDumpsDict d))

/-- Source `sha256_json` (`registry.py` lines 27-32) at the rendered
messages list: SHA-256 hex of the canonical JSON. -/
def sha256_json_messages (ms : List Message) : String :=
  sha256Hex (utf8Encode (jsonDumpsMessages ms))

/- ### Template rendering (Jinja2 with `StrictUndefined`, on the fragment used)

The source renders each template body with
`Environment(undefined=StrictUndefined).from_string(body).render(merged_vars)`.
On the fragment the templates use — literal text with named placeholders,
double-brace delimited, name trimmed of surrounding whitespace — this is
plain substitution that raises `UndefinedError` naming the variable at
the first placeholder absent from the variable map; it never substitutes
an empty string. -/

/-- The opening delimiter character of a placeholder. -/
def obr : Char := Char.ofNat 123

/-- The closing delimiter character of a placeholder. -/
def cbr : Char := Char.ofNat 125

/-- A failure of one strict rendering pass. -/
inductive TemplateErr where
  | undefinedVar (name : String)
  | malformed
deriving DecidableEq

/-- One strict rendering pass over the body's characters. `acc = none`
is literal-text mode; `acc = some cs` accumulates a placeholder name
(reversed) after an opening delimiter pair. -/
def renderChars (vars : Dict) : Option (List Char) → List Char → Except TemplateErr (List Char)
  | none, [] => .ok []
  | none, c1 :: c2 :: rest =>
      if c1 == obr && c2 == obr then
        renderChars vars (some []) rest
      else
        match renderChars vars none (c2 :: rest) with
        | .ok tail => .ok (c1 :: tail)
        | .error e => .error e
  | none, [c] => .ok [c]
  | some acc, c1 :: c2 :: rest =>
      if c1 == cbr && c2 == cbr then
        let name := String.mk (stripChars acc.reverse)
        match List.lookup name vars with
        | some v =>
            match renderChars vars none rest with
            | .ok tail => .ok (v.data ++ tail)
            | .error e => .error e
        | none => .error (.undefinedVar name)
      else renderChars vars (some (c1 :: acc)) (c2 :: rest)
  | some _, _ => .error .malformed

/-- Strict rendering of one template body against a variable map. -/
def renderTemplate (vars : Dict) (body : String) : Except TemplateErr String :=
  (renderChars vars none body.data).map String.mk

/- ### Data model (`models/registry.py`) -/

/-- Source `PromptTemplate`: a loaded template definition. -/
structure PromptTemplate where
  id : String
  description : String
  template_hash : String
  system_template : String
  user_template : String
  required_inputs : List String
  optional_inputs : Dict
  llm_config : Option Dict
deriving DecidableEq

/-- The registry `dict[str, PromptTemplate]`, insertion-ordered. -/
abbrev Registry := List (String × PromptTemplate)

/-- Source `RenderedPrompt`: the value returned by `render_prompt`. -/
structure RenderedPrompt where
  id : String
  template_hash : String
  rendered_hash : String
  variables_hash : String
  messages : List Message
  llm_config : Option Dict
deriving DecidableEq

/-- Source `PromptMetadata`, with time as a `Nat` clock value. -/
structure PromptMetadata where
  id : String
  content_hash : String
  description : String
  loaded_at : Nat
deriving DecidableEq

/- ### Loading (`registry.py` lines 35-105)

File reading and YAML parsing are embedded by their outcomes: a
`PromptFile` is the filename stem together with the parse result
(`none` = `yaml.safe_load`/`read_text` failed); a parsed mapping has
`Option`-valued fields, `none` meaning the key is absent so the
subscript raises `KeyError`. Any exception propagates out of
`load_prompt_registry`, which has no handler, so the whole load fails. -/

/-- The parsed `inputs` sub-mapping of a definition file. -/
structure RawInputs where
  required? : Option (List String)
  optional? : Option Dict
deriving DecidableEq

/-- A parsed definition file, each field present or absent. -/
structure RawPrompt where
  id? : Option String
  description? : Option String
  system? : Option String
  user? : Option String
  inputs? : Option RawInputs
  model_defaults? : Option (Option Dict)
deriving DecidableEq

/-- A file in the templates directory: its stem and its parse outcome. -/
structure PromptFile where
  stem : String
  parsed : Option RawPrompt
deriving DecidableEq

/-- The ways loading fails (all fatal: exceptions with no handler). An
unreadable or missing directory is not among them: `Path.glob` swallows
its errors and simply yields no files. -/
inductive LoadError where
  | parseFailure (file : String)
  | missingField (file field : String)
  | idMismatch (file expected actual : String)
deriving DecidableEq

/-- Source `load_prompt_file` (`registry.py` lines 35-78): parse, check
the declared id against the filename stem, read the required fields in
source order, hash the concatenated bodies. -/
def load_prompt_file (f : PromptFile) : Except LoadError PromptTemplate :=
  match f.parsed with
  | none => .error (.parseFailure f.stem)
  | some raw =>
    match raw.id? with
    | none => .error (.missingField f.stem "id")
    | some declaredId =>
      if declaredId ≠ f.stem then .error (.idMismatch f.stem f.stem declaredId)
      else
        match raw.system? with
        | none => .error (.missingField f.stem "system")
        | some systemBody =>
          match raw.user? with
          | none => .error (.missingField f.stem "user")
          | some userBody =>
            let template_hash := templateHashOf systemBody userBody
            match raw.model_defaults? with
            | none => .error (.missingField f.stem "model_defaults")
            | some llm_config =>
              match raw.description? with
              | none => .error (.missingField f.stem "description")
              | some description =>
                match raw.inputs? with
                | none => .error (.missingField f.stem "inputs")
                | some ins =>
                  match ins.required? with
                  | none => .error (.missingField f.stem "required")
                  | some required_inputs =>
                    match ins.optional? with
                    | none => .error (.missingField f.stem "optional")
                    | some optional_inputs =>
                      .ok ⟨declaredId, description, template_hash, systemBody, userBody,
                           required_inputs, optional_inputs, llm_config⟩

/-- All fields the loader subscripts are present: `id`, `description`,
`system`, `user`, `model_defaults`, and inside `inputs` both `required`
and `optional`; any absence raises `KeyError` in the source. -/
def rawFieldsComplete (raw : RawPrompt) : Bool :=
  raw.id?.isSome && raw.description?.isSome && raw.system?.isSome && raw.user?.isSome
    && raw.model_defaults?.isSome
    && (match raw.inputs? with
        | some ins => ins.required?.isSome && ins.optional?.isSome
        | none => false)

/-- Python dict item assignment for the registry, as for `Dict`. -/
def regInsert (r : Registry) (k : String) (v : PromptTemplate) : Registry :=
  if r.any (fun p => p.1 == k) then
    r.map (fun p => if p.1 == k then (k, v) else p)
  else r ++ [(k, v)]

/-- Source `load_prompt_registry` (`registry.py` lines 81-105): iterate
the directory's files, load each, key it by its id. `none` stands for an
unreadable or missing directory; `prompts_dir.glob("*.yaml")` swallows
the underlying error (CPython's glob machinery suppresses
`PermissionError`/`OSError`) and yields no entries, so that case folds
over nothing and succeeds with an empty registry. -/
def load_prompt_registry (dir : Option (List PromptFile)) : Except LoadError Registry :=
  match dir with
  | none => .ok []
  | some files =>
    files.foldlM (fun reg f => (load_prompt_file f).map (fun t => regInsert reg t.id t)) []

/- ### Rendering (`registry.py` lines 108-200) -/

/-- The failures `render_prompt` raises: `KeyError` for an unknown id,
`ValueError` for missing required inputs (logged together with the full
required list and the provided keys), and Jinja2's `UndefinedError` /
`TemplateSyntaxError` propagated from the strict rendering pass. -/
inductive RenderError where
  | notFound (prompt_id : String) (available : List String)
  | missingInputs (missing required provided : List String)
  | undefinedVariable (name : String)
  | templateMalformed
deriving DecidableEq

/-- Source `set(template.required_inputs) - variables.keys()` as a
duplicate-free list of names. -/
def missingOf (required provided : List String) : List String :=
  (required.filter (fun r => decide (r ∉ provided))).dedup

/-- Map a rendering-pass failure to the error `render_prompt` raises. -/
def ofTemplateErr : TemplateErr → RenderError
  | .undefinedVar n => .undefinedVariable n
  | .malformed => .templateMalformed

/-- Source `render_prompt` (`registry.py` lines 108-200). -/
def render_prompt (registry : Registry) (prompt_id : String) (vars : Dict) :
    Except RenderError RenderedPrompt :=
  match List.lookup prompt_id registry with
  | none => .error (.notFound prompt_id (registry.map Prod.fst))
  | some template =>
    let missing := missingOf template.required_inputs (dictKeys vars)
    if missing ≠ [] then
      .error (.missingInputs missing template.required_inputs (dictKeys vars))
    else
      let merged := dictMerge template.optional_inputs vars
      match renderTemplate merged template.system_template with
      | .error e => .error (ofTemplateErr e)
      | .ok rendered_system =>
        match renderTemplate merged template.user_template with
        | .error e => .error (ofTemplateErr e)
        | .ok rendered_user =>
          let messages : List Message := [⟨"system", rendered_system⟩, ⟨"user", rendered_user⟩]
          .ok ⟨template.id, template.template_hash, sha256_json_messages messages,
               sha256_json_dict merged, messages, template.llm_config⟩

/-- Source `list_prompt_metadata` (`registry.py` lines 203-216): one
entry per registry value; `now` is the single `datetime.utcnow()` the
function reads when it is called. -/
def list_prompt_metadata (registry : Registry) (now : Nat) : List PromptMetadata :=
  registry.map (fun p => ⟨p.2.id, p.2.template_hash, p.2.description, now⟩)

/-- `load_prompt_registry` followed by `render_prompt`, one run of the
load+render pipeline. -/
def loadAndRender (dir : Option (List PromptFile)) (prompt_id : String) (vars : Dict) :
    Except LoadError (Except RenderError RenderedPrompt) :=
  (load_prompt_registry dir).map (fun reg => render_prompt reg prompt_id vars)

/- ### Span filter (`observability/__init__.py` lines 27-74) -/

/-- A completed span, of which the filter reads only the name. -/
structure Rspan where
  name : String
deriving DecidableEq

/-- A span processor as a state machine: the state type stands for
whatever the downstream processor accumulates, and each lifecycle call
transforms it (`force_flush` also returns its success bool). -/
structure SpanProcessor (σ : Type) (κ : Type) where
  on_start : σ → Rspan → Option κ → σ
  on_end : σ → Rspan → σ
  shutdown : σ → σ
  force_flush : σ → Nat → σ × Bool

/-- Does `pat` occur at the head of the character list? -/
def matchesAt : List Char → List Char → Bool
  | [], _ => true
  | _ :: _, [] => false
  | p :: ps, c :: cs => p == c && matchesAt ps cs

/-- Does `pat` occur anywhere in the character list? -/
def charsContain (pat : List Char) : List Char → Bool
  | [] => matchesAt pat []
  | c :: rest => matchesAt pat (c :: rest) || charsContain pat rest

/-- Python's `pat in s` substring test. -/
def strContains (s pat : String) : Bool := charsContain pat.data s.data

/-- Python's `s.lower()` on the ASCII range the marker uses. -/
def strToLower (s : String) : String := String.mk (s.data.map Char.toLower)

/-- The noise marker the source tests for in `on_end`. -/
def noiseMarker : String := "http send"

/-- Source `FilterSpanProcessor`: wraps `next`, forwards `on_start`,
`shutdown` and `force_flush` unconditionally, and in `on_end` returns
without calling `next` exactly when the lowercased span name contains
the noise marker. -/
def FilterSpanProcessor {σ κ : Type} (next : SpanProcessor σ κ) : SpanProcessor σ κ :=
  ⟨fun st sp ctx => next.on_start st sp ctx,
   fun st sp => if strContains (strToLower sp.name) noiseMarker then st else next.on_end st sp,
   fun st => next.shutdown st,
   fun st t => next.force_flush st t⟩

/-- One observable lifecycle call, for the recording processor. -/
inductive SpanEvent (κ : Type) where
  | started (sp : Rspan) (ctx : Option κ)
  | ended (sp : Rspan)
  | shut
  | flushed (timeoutMillis : Nat)
deriving DecidableEq

/-- A processor that records every call it receives, used to observe
which calls the filter forwards. -/
def recordingProcessor (κ : Type) : SpanProcessor (List (SpanEvent κ)) κ :=
  ⟨fun log sp ctx => log ++ [.started sp ctx],
   fun log sp => log ++ [.ended sp],
   fun log => log ++ [.shut],
   fun log t => (log ++ [.flushed t], true)⟩


/- ### Concrete fixtures used by witnesses and counterexamples -/

/-- A representative system template body. -/
def demoSystemBody : String := "You are a Kubernetes log analyst."

/-- A representative user template body with two placeholders. -/
def demoUserBody : String := "ns=\x7b\x7bnamespace\x7d\x7d logs=\x7b\x7blogs\x7d\x7d"

/-- A loaded template like the repository's `k8s_log_analysis_v1`:
`logs` required, `namespace` defaulted to `"unknown"`. -/
def demoTemplate : PromptTemplate :=
  ⟨"k8s_log_analysis_v1", "Analyze Kubernetes logs", templateHashOf demoSystemBody demoUserBody,
   demoSystemBody, demoUserBody, ["logs"], [("namespace", "unknown")],
   some [("temperature", "0.1")]⟩

/-- A one-template registry holding `demoTemplate`. -/
def demoRegistry : Registry := [("k8s_log_analysis_v1", demoTemplate)]

/-- A template whose system half references the undefined `x`. -/
def sysHalfTemplate : PromptTemplate :=
  ⟨"p", "d", "h", "\x7b\x7bx\x7d\x7d", "", [], [], none⟩

/-- A template whose user half references the undefined `x`. -/
def usrHalfTemplate : PromptTemplate :=
  ⟨"p", "d", "h", "", "\x7b\x7bx\x7d\x7d", [], [], none⟩

/-- Registry for the system-half undefined-variable scenario. -/
def sysHalfRegistry : Registry := [("p", sysHalfTemplate)]

/-- Registry for the user-half undefined-variable scenario. -/
def usrHalfRegistry : Registry := [("p", usrHalfTemplate)]

/-- A parsed definition file declaring `id: "bar"` inside `foo.yaml`. -/
def mismatchRaw : RawPrompt :=
  ⟨some "bar", some "d", some "s", some "u", some ⟨some [], some []⟩, some none⟩

/-- The file `foo.yaml` whose declared id is `"bar"`. -/
def mismatchFile : PromptFile := ⟨"foo", some mismatchRaw⟩

/-- A well-formed definition file `good.yaml`. -/
def goodRaw : RawPrompt :=
  ⟨some "good", some "demo prompt", some "sys", some "hello \x7b\x7bwho\x7d\x7d",
   some ⟨some ["who"], some []⟩, some none⟩

/-- The directory entry for `good.yaml`. -/
def goodFile : PromptFile := ⟨"good", some goodRaw⟩

/-- A readable directory holding only `good.yaml`. -/
def goodDir : Option (List PromptFile) := some [goodFile]

/-- The rendered prompt `load` + `render` produce from `goodDir` with
`who = "world"`, spelled with the same hash constructions the renderer
uses. -/
def goodRendered : RenderedPrompt :=
  ⟨"good", templateHashOf "sys" "hello \x7b\x7bwho\x7d\x7d",
   sha256_json_messages [⟨"system", "sys"⟩, ⟨"user", "hello world"⟩],
   sha256_json_dict [("who", "world")],
   [⟨"system", "sys"⟩, ⟨"user", "hello world"⟩], none⟩

/-- First template of the metadata fixture registry. -/
def metaTemplateA : PromptTemplate := ⟨"alpha", "first prompt", "hash_a", "s", "u", [], [], none⟩

/-- Second template of the metadata fixture registry. -/
def metaTemplateB : PromptTemplate := ⟨"beta", "second prompt", "hash_b", "s", "u", [], [], none⟩

/-- A two-template registry, as produced by one load. -/
def metaRegistry : Registry := [("alpha", metaTemplateA), ("beta", metaTemplateB)]

/-- A template requiring `logs` whose bodies reference nothing else. -/
def extraKeyTemplate : PromptTemplate :=
  ⟨"p", "d", "h", "sys", "logs=\x7b\x7blogs\x7d\x7d", ["logs"], [], none⟩

/-- Registry for the unused-extra-key scenario. -/
def extraKeyRegistry : Registry := [("p", extraKeyTemplate)]

/- ### Helper lemmas on dict lookup, merge and missing-input computation -/

/-- Membership in the source's required-minus-provided set. -/
theorem mem_missingOf {required provided : List String} {x : String} :
    x ∈ missingOf required provided ↔ x ∈ required ∧ x ∉ provided := by
  simp [missingOf, List.mem_dedup, List.mem_filter]

/-- The missing set is empty exactly when every required name is provided. -/
theorem missingOf_eq_nil_iff {required provided : List String} :
    missingOf required provided = [] ↔ ∀ x ∈ required, x ∈ provided := by
  rw [List.eq_nil_iff_forall_not_mem]
  constructor
  · intro h x hx
    by_contra hp
    exact h x (mem_missingOf.mpr ⟨hx, hp⟩)
  · intro h x hx
    rcases mem_missingOf.mp hx with ⟨h1, h2⟩
    exact h2 (h x h1)

/-- Unfolding lemma for key lookup at an explicit cons cell. -/
theorem lookup_cons2 (k a b : String) (l : List (String × String)) :
    List.lookup k ((a, b) :: l) = if k = a then some b else List.lookup k l := by
  by_cases h : k = a
  · simp [List.lookup, h]
  · have hb : (k == a) = false := beq_eq_false_iff_ne.mpr h
    simp [List.lookup, hb, h]

/-- Looking a key up after the overwrite pass of a dict assignment. -/
theorem lookup_map_overwrite (d : Dict) (k newk v : String) :
    List.lookup k (d.map (fun p => if p.1 == newk then (newk, v) else p)) =
      if k = newk then (if d.any (fun p => p.1 == newk) then some v else none)
      else List.lookup k d := by
  induction d with
  | nil => by_cases hk : k = newk <;> simp [List.lookup, hk]
  | cons pr rest ih =>
    rcases pr with ⟨a, b⟩
    rw [List.map_cons, List.any_cons]
    dsimp only
    by_cases hpa : a = newk
    · have h1 : (a == newk) = true := beq_iff_eq.mpr hpa
      rw [h1, Bool.true_or, if_pos rfl, lookup_cons2]
      by_cases hk : k = newk
      · simp [hk]
      · rw [if_neg hk, ih, if_neg hk, if_neg hk, lookup_cons2]
        have hka : ¬ k = a := fun hc => hk (hc.trans hpa)
        rw [if_neg hka]
    · have h1 : (a == newk) = false := beq_eq_false_iff_ne.mpr hpa
      rw [h1, Bool.false_or, if_neg (by simp), lookup_cons2]
      by_cases hk : k = a
      · have hkn : ¬ k = newk := fun hc => hpa (hk.symm.trans hc)
        rw [if_pos hk, if_neg hkn, lookup_cons2, if_pos hk]
      · rw [if_neg hk, ih, lookup_cons2, if_neg hk]

/-- Key lookup distributes over list append. -/
theorem lookup_append (l1 l2 : Dict) (k : String) :
    List.lookup k (l1 ++ l2) =
      match List.lookup k l1 with
      | some v => some v
      | none => List.lookup k l2 := by
  induction l1 with
  | nil => simp [List.lookup]
  | cons pr rest ih =>
    rcases pr with ⟨a, b⟩
    rw [List.cons_append, lookup_cons2, lookup_cons2]
    by_cases hk : k = a
    · rw [if_pos hk, if_pos hk]
    · rw [if_neg hk, if_neg hk, ih]

/-- A key that occurs on no pair looks up to nothing. -/
theorem lookup_eq_none_of_not_key (d : Dict) (k : String)
    (h : d.any (fun p => p.1 == k) = false) : List.lookup k d = none := by
  induction d with
  | nil => simp [List.lookup]
  | cons pr rest ih =>
    rcases pr with ⟨a, b⟩
    rw [List.any_cons, Bool.or_eq_false_iff] at h
    dsimp only at h
    have hka : ¬ k = a := by
      intro hc
      rw [beq_eq_false_iff_ne] at h
      exact h.1 (hc ▸ rfl)
    rw [lookup_cons2, if_neg hka]
    exact ih h.2

/-- Python `d[k2] = v` seen through lookup: the assigned key maps to the
new value, every other key is untouched. -/
theorem lookup_dictInsert (d : Dict) (k k2 v : String) :
    List.lookup k (dictInsert d k2 v) = if k = k2 then some v else List.lookup k d := by
  unfold dictInsert
  by_cases hAny : d.any (fun p => p.1 == k2) = true
  · rw [if_pos hAny, lookup_map_overwrite, hAny]
    by_cases hk : k = k2 <;> simp [hk]
  · have hAny2 : d.any (fun p => p.1 == k2) = false := Bool.eq_false_iff.mpr hAny
    rw [if_neg hAny, lookup_append]
    by_cases hk : k = k2
    · rw [hk, lookup_eq_none_of_not_key d k2 hAny2]
      simp [lookup_cons2]
    · rw [if_neg hk]
      cases hL : List.lookup k d
      · have hb : (k == k2) = false := beq_eq_false_iff_ne.mpr hk
        simp [List.lookup, hb]
      · simp

/-- Python `{**a, **b}` seen through lookup: entries of `b` win, entries
of `a` fill in the rest (for `b` with distinct keys, as every Python
dict has). -/
theorem lookup_dictMerge (a b : Dict) (k : String) (hb : (dictKeys b).Nodup) :
    List.lookup k (dictMerge a b) =
      match List.lookup k b with
      | some v => some v
      | none => List.lookup k a := by
  induction b generalizing a with
  | nil => simp [dictMerge, List.lookup]
  | cons pr rest ih =>
    rcases pr with ⟨kb, vb⟩
    have hmerge : dictMerge a ((kb, vb) :: rest) = dictMerge (dictInsert a kb vb) rest := rfl
    rw [hmerge]
    simp only [dictKeys, List.map_cons, List.nodup_cons] at hb
    rw [ih _ hb.2, lookup_cons2]
    by_cases hkp : k = kb
    · have hrest : List.lookup k rest = none := by
        apply lookup_eq_none_of_not_key
        rw [Bool.eq_false_iff]
        intro hc
        rw [List.any_eq_true] at hc
        obtain ⟨q, hq, hq2⟩ := hc
        rw [beq_iff_eq] at hq2
        exact hb.1 (hkp ▸ hq2 ▸ List.mem_map_of_mem Prod.fst hq)
      rw [hrest, lookup_dictInsert, if_pos hkp, if_pos hkp]
    · rw [lookup_dictInsert, if_neg hkp, if_neg hkp]

/-- On a key-distinct dict, membership determines lookup. -/
theorem lookup_of_mem_nodup {l : Dict} {k v : String}
    (hn : (dictKeys l).Nodup) (hm : (k, v) ∈ l) : List.lookup k l = some v := by
  induction l with
  | nil => cases hm
  | cons pr rest ih =>
    rcases pr with ⟨a, b⟩
    simp only [dictKeys, List.map_cons, List.nodup_cons] at hn
    rcases List.mem_cons.mp hm with h | h
    · rw [lookup_cons2]
      rcases Prod.mk.injEq .. ▸ h with ⟨h1, h2⟩
      simp [h1, h2]
    · have hkp : ¬ k = a := by
        intro hc
        exact hn.1 (hc ▸ List.mem_map_of_mem Prod.fst h)
      rw [lookup_cons2, if_neg hkp]
      exact ih hn.2 h

/- ### C2 — template-hash whitespace invariance and sensitivity -/

/-- C2 counterexample: the bodies `("a", "b")` and `("ab", "")` differ in
characters of both halves yet share `template_hash`, because the hash is
taken over the concatenation: full sensitivity to any per-body character
change fails. -/
theorem templateHash_boundary_shift_collision :
    templateHashOf "a" "b" = templateHashOf "ab" ""
    ∧ ("a", "b") ≠ (("ab" : String), ("" : String)) := by
  exact ⟨rfl, by decide⟩

/-- C2 (amended): `template_hash` depends only on the concatenation of
the two bodies after CRLF normalization and edge trimming — equal
canonical concatenations give equal hashes — and a content change that
changes the canonical concatenation changes the hash in the concrete
case `"ab"` versus `"ac"`; sensitivity to arbitrary per-body character
changes does not hold (see the boundary-shift counterexample). -/
theorem templateHash_canonical_invariant (s1 u1 s2 u2 : String)
    (h : canonText (s1 ++ u1) = canonText (s2 ++ u2)) :
    templateHashOf s1 u1 = templateHashOf s2 u2
    ∧ templateHashOf "a" "b" ≠ templateHashOf "a" "c" := by
  constructor
  · unfold templateHashOf sha256_text
    rw [h]
  · decide

/-- C2 witness: bodies differing only in edge whitespace and a CRLF have
equal canonical concatenations, hence equal hashes. -/
theorem templateHash_canonical_invariant_witness :
    templateHashOf "a " "b" = templateHashOf "a b\r\n" ""
    ∧ templateHashOf "a" "b" ≠ templateHashOf "a" "c" :=
  templateHash_canonical_invariant "a " "b" "a b\r\n" "" (by decide)

/- ### C7 — span filter contract -/

/-- C7: `on_end` forwards to the next processor exactly when the
lowercased span name does not contain the noise marker, and is the
identity on the downstream state (the next processor is not invoked)
when it does; `on_start`, `shutdown` and `force_flush` delegate to the
next processor unconditionally. -/
theorem filter_span_processor_contract {σ κ : Type} (next : SpanProcessor σ κ) (st : σ)
    (sp : Rspan) (ctx : Option κ) (t : Nat) :
    (strContains (strToLower sp.name) noiseMarker = false →
      (FilterSpanProcessor next).on_end st sp = next.on_end st sp)
    ∧ (strContains (strToLower sp.name) noiseMarker = true →
      (FilterSpanProcessor next).on_end st sp = st)
    ∧ (FilterSpanProcessor next).on_start st sp ctx = next.on_start st sp ctx
    ∧ (FilterSpanProcessor next).shutdown st = next.shutdown st
    ∧ (FilterSpanProcessor next).force_flush st t = next.force_flush st t := by
  refine ⟨fun h => ?_, fun h => ?_, rfl, rfl, rfl⟩
  · simp [FilterSpanProcessor, h]
  · simp [FilterSpanProcessor, h]

/-- C7 witness: against a recording downstream processor, a span named
`"GET / http send"` is dropped (no event recorded), a span named
`"query_loki"` is forwarded, and `shutdown` reaches the next processor. -/
theorem filter_span_processor_contract_witness :
    (FilterSpanProcessor (recordingProcessor Unit)).on_end [] ⟨"GET / http send"⟩ = []
    ∧ (FilterSpanProcessor (recordingProcessor Unit)).on_end [] ⟨"query_loki"⟩
        = [SpanEvent.ended ⟨"query_loki"⟩]
    ∧ (FilterSpanProcessor (recordingProcessor Unit)).shutdown [] = [SpanEvent.shut] := by
  refine ⟨?_, ?_, ?_⟩
  · exact (filter_span_processor_contract (recordingProcessor Unit) [] ⟨"GET / http send"⟩
      none 0).2.1 (by decide)
  · rw [(filter_span_processor_contract (recordingProcessor Unit) [] ⟨"query_loki"⟩
      none 0).1 (by decide)]
    rfl
  · rw [(filter_span_processor_contract (recordingProcessor Unit) [] ⟨"query_loki"⟩
      none 0).2.2.2.1]
    rfl

/- ### C8 — determinism of load + render -/

/-- C8: the load+render pipeline is a pure function of the directory
contents, the prompt id and the variables: two runs on identical inputs
return identical `template_hash`, `variables_hash`, `rendered_hash` and
`messages`. -/
theorem load_render_deterministic (dir : Option (List PromptFile)) (pid : String) (vs : Dict)
    (r1 r2 : RenderedPrompt)
    (h1 : loadAndRender dir pid vs = .ok (.ok r1))
    (h2 : loadAndRender dir pid vs = .ok (.ok r2)) :
    r1.template_hash = r2.template_hash ∧ r1.variables_hash = r2.variables_hash
    ∧ r1.rendered_hash = r2.rendered_hash ∧ r1.messages = r2.messages := by
  rw [h1] at h2
  have h3 : r1 = r2 := Except.ok.inj (Except.ok.inj h2)
  rw [h3]
  exact ⟨rfl, rfl, rfl, rfl⟩

/-- C8 witness: two runs of load+render on the concrete `goodDir`
produce the same rendered prompt. -/
theorem load_render_deterministic_witness :
    goodRendered.template_hash = goodRendered.template_hash
    ∧ goodRendered.variables_hash = goodRendered.variables_hash
    ∧ goodRendered.rendered_hash = goodRendered.rendered_hash
    ∧ goodRendered.messages = goodRendered.messages :=
  load_render_deterministic goodDir "good" [("who", "world")] goodRendered goodRendered
    (by decide) (by decide)

/- ### C9 — metadata `loaded_at` is stamped at listing time, not load time -/

/-- C9: `list_prompt_metadata` stamps every entry with the clock value at
the moment it is called (`datetime.utcnow()` read inside the function):
listing the registry of one single load at two different times yields
two different `loaded_at` values, so `loaded_at` is not the load
timestamp; within any one call all entries do share one value. -/
theorem list_prompt_metadata_stamps_call_time :
    (list_prompt_metadata metaRegistry 5).map PromptMetadata.loaded_at = [5, 5]
    ∧ (list_prompt_metadata metaRegistry 7).map PromptMetadata.loaded_at = [7, 7]
    ∧ (5 : Nat) ≠ 7 := by
  exact ⟨rfl, rfl, by decide⟩

/- ### C1 — shape of a successful render -/

/-- C1: when the prompt id is registered, every required input is
supplied, and both bodies render strictly, `render_prompt` returns the
two fixed-order messages (`system` then `user`), copies `id`,
`template_hash` and `llm_config` from the stored definition unchanged,
and sets `variables_hash` to the SHA-256 of the canonical JSON of the
merged variables and `rendered_hash` to the SHA-256 of the canonical
JSON of the messages list. -/
theorem render_prompt_success_shape (registry : Registry) (pid : String) (vs : Dict)
    (t : PromptTemplate) (rs ru : String)
    (hfind : List.lookup pid registry = some t)
    (hreq : missingOf t.required_inputs (dictKeys vs) = [])
    (hsys : renderTemplate (dictMerge t.optional_inputs vs) t.system_template = .ok rs)
    (husr : renderTemplate (dictMerge t.optional_inputs vs) t.user_template = .ok ru) :
    render_prompt registry pid vs = .ok
      ⟨t.id, t.template_hash,
       sha256_json_messages [⟨"system", rs⟩, ⟨"user", ru⟩],
       sha256_json_dict (dictMerge t.optional_inputs vs),
       [⟨"system", rs⟩, ⟨"user", ru⟩], t.llm_config⟩ := by
  unfold render_prompt
  rw [hfind]
  simp only [hreq, hsys, husr, ne_eq, not_true_eq_false, if_false, reduceCtorEq]

/-- C1 witness: the end-to-end scenario of the spec, with the default
`namespace` and a required `logs` value. -/
theorem render_prompt_success_shape_witness :
    render_prompt demoRegistry "k8s_log_analysis_v1" [("logs", "ERROR: pod crashed")] = .ok
      ⟨demoTemplate.id, demoTemplate.template_hash,
       sha256_json_messages
         [⟨"system", demoSystemBody⟩, ⟨"user", "ns=unknown logs=ERROR: pod crashed"⟩],
       sha256_json_dict (dictMerge demoTemplate.optional_inputs [("logs", "ERROR: pod crashed")]),
       [⟨"system", demoSystemBody⟩, ⟨"user", "ns=unknown logs=ERROR: pod crashed"⟩],
       demoTemplate.llm_config⟩ :=
  render_prompt_success_shape demoRegistry "k8s_log_analysis_v1" [("logs", "ERROR: pod crashed")]
    demoTemplate demoSystemBody "ns=unknown logs=ERROR: pod crashed"
    rfl (by decide) (by decide) (by decide)

/- ### C4 — missing-required-input failure -/

/-- C4: for a registered id, `render_prompt` fails with the
missing-inputs error exactly when some required input is not among the
caller's keys, and the error then carries the full required list, the
provided keys, and exactly the required-minus-provided names. -/
theorem render_prompt_missing_inputs (registry : Registry) (pid : String) (vs : Dict)
    (t : PromptTemplate)
    (hfind : List.lookup pid registry = some t) :
    ((∃ m r p, render_prompt registry pid vs = .error (.missingInputs m r p)) ↔
      ∃ x, x ∈ t.required_inputs ∧ x ∉ dictKeys vs)
    ∧ (∀ m r p, render_prompt registry pid vs = .error (.missingInputs m r p) →
        r = t.required_inputs ∧ p = dictKeys vs
        ∧ ∀ x, (x ∈ m ↔ (x ∈ t.required_inputs ∧ x ∉ dictKeys vs))) := by
  by_cases hmiss : missingOf t.required_inputs (dictKeys vs) = []
  · have hne : ∀ m r p, render_prompt registry pid vs ≠ .error (.missingInputs m r p) := by
      intro m r p hc
      unfold render_prompt at hc
      rw [hfind] at hc
      simp only [hmiss, ne_eq, not_true_eq_false, if_false, reduceCtorEq] at hc
      rcases hsys : renderTemplate (dictMerge t.optional_inputs vs) t.system_template
        with e | rs
      · rw [hsys] at hc
        cases e <;> simp [ofTemplateErr] at hc
      · rw [hsys] at hc
        rcases husr : renderTemplate (dictMerge t.optional_inputs vs) t.user_template
          with e | ru
        · rw [husr] at hc
          cases e <;> simp [ofTemplateErr] at hc
        · rw [husr] at hc
          exact Except.noConfusion hc
    constructor
    · constructor
      · intro ⟨m, r, p, hc⟩
        exact absurd hc (hne m r p)
      · intro ⟨x, hx1, hx2⟩
        exact absurd (missingOf_eq_nil_iff.mp hmiss x hx1) hx2
    · intro m r p hc
      exact absurd hc (hne m r p)
  · have hr : render_prompt registry pid vs =
        .error (.missingInputs (missingOf t.required_inputs (dictKeys vs))
          t.required_inputs (dictKeys vs)) := by
      unfold render_prompt
      rw [hfind]
      simp only [ne_eq]
      rw [if_pos hmiss]
    constructor
    · constructor
      · intro _
        rcases List.exists_mem_of_ne_nil _ hmiss with ⟨x, hx⟩
        exact ⟨x, mem_missingOf.mp hx⟩
      · intro _
        exact ⟨_, _, _, hr⟩
    · intro m r p hc
      rw [hr] at hc
      rcases RenderError.missingInputs.inj (Except.error.inj hc) with ⟨hm, hrq, hp⟩
      refine ⟨hrq.symm, hp.symm, fun x => ?_⟩
      rw [← hm]
      exact mem_missingOf
    
/-- C4 witness: the required `logs` is absent from an empty variables
map, so the missing-inputs failure fires with the documented payload. -/
theorem render_prompt_missing_inputs_witness :
    ((∃ m r p, render_prompt demoRegistry "k8s_log_analysis_v1" [] = .error (.missingInputs m r p)) ↔
      ∃ x, x ∈ demoTemplate.required_inputs ∧ x ∉ dictKeys ([] : Dict))
    ∧ (∀ m r p, render_prompt demoRegistry "k8s_log_analysis_v1" [] = .error (.missingInputs m r p) →
        r = demoTemplate.required_inputs ∧ p = dictKeys ([] : Dict)
        ∧ ∀ x, (x ∈ m ↔ (x ∈ demoTemplate.required_inputs ∧ x ∉ dictKeys ([] : Dict)))) :=
  render_prompt_missing_inputs demoRegistry "k8s_log_analysis_v1" [] demoTemplate rfl

/- ### C5 — undefined-variable failure names the variable but not the half -/

/-- C5 counterexample: a system-half reference to the undefined `x` and
a user-half reference to the undefined `x` raise the identical error
value, so the error cannot name the template half in which the variable
occurred (the source propagates Jinja2's `UndefinedError`, which carries
only the variable name). -/
theorem render_undefined_error_lacks_half :
    render_prompt sysHalfRegistry "p" [] = .error (.undefinedVariable "x")
    ∧ render_prompt usrHalfRegistry "p" [] = .error (.undefinedVariable "x")
    ∧ sysHalfTemplate.system_template ≠ usrHalfTemplate.system_template := by
  decide

/-- C5 (amended): referencing a variable absent from the merged map in
either body makes `render_prompt` fail with an undefined-variable error
naming that variable (no rendered output is returned, so no
empty-string substitution occurs); the template half is not part of the
error. -/
theorem render_prompt_undefined_variable (registry : Registry) (pid : String) (vs : Dict)
    (t : PromptTemplate) (n : String)
    (hfind : List.lookup pid registry = some t)
    (hreq : missingOf t.required_inputs (dictKeys vs) = [])
    (h : renderTemplate (dictMerge t.optional_inputs vs) t.system_template
          = .error (.undefinedVar n)
      ∨ (∃ rs, renderTemplate (dictMerge t.optional_inputs vs) t.system_template = .ok rs
          ∧ renderTemplate (dictMerge t.optional_inputs vs) t.user_template
              = .error (.undefinedVar n))) :
    render_prompt registry pid vs = .error (.undefinedVariable n) := by
  unfold render_prompt
  rw [hfind]
  simp only [hreq, ne_eq, not_true_eq_false, if_false, reduceCtorEq]
  rcases h with h | ⟨rs, hs, hu⟩
  · rw [h]
    rfl
  · rw [hs, hu]
    rfl

/-- C5 witness: a user-half body referencing the undefined `x` fails
with the undefined-variable error naming `x`. -/
theorem render_prompt_undefined_variable_witness :
    render_prompt usrHalfRegistry "p" [] = .error (.undefinedVariable "x") :=
  render_prompt_undefined_variable usrHalfRegistry "p" [] usrHalfTemplate "x"
    rfl (by decide) (Or.inr ⟨"", by decide, by decide⟩)

/- ### C6 — merge precedence: caller variables override declared defaults -/

/-- C6: in the merged map `render_prompt` builds, a key takes the
caller-supplied value whenever the caller provides one and the declared
default only otherwise; concretely, with default
`namespace = "unknown"` and caller `namespace = "prod"`, the rendered
user content contains `"prod"` and not `"unknown"`. -/
theorem render_merge_override (opt vs : Dict) (k : String)
    (hn : (dictKeys vs).Nodup) :
    (List.lookup k (dictMerge opt vs) =
      match List.lookup k vs with
      | some v => some v
      | none => List.lookup k opt)
    ∧ dictMerge [("namespace", "unknown")] [("namespace", "prod"), ("logs", "x")]
        = [("namespace", "prod"), ("logs", "x")]
    ∧ (render_prompt demoRegistry "k8s_log_analysis_v1"
        [("namespace", "prod"), ("logs", "x")]).toOption.map RenderedPrompt.messages
      = some [⟨"system", demoSystemBody⟩, ⟨"user", "ns=prod logs=x"⟩]
    ∧ strContains "ns=prod logs=x" "prod" = true
    ∧ strContains "ns=prod logs=x" "unknown" = false :=
  ⟨lookup_dictMerge opt vs k hn, by decide, by decide, by decide, by decide⟩

/-- C6 witness: the merged lookup at the colliding key returns the
caller's `"prod"`. -/
theorem render_merge_override_witness :
    (List.lookup "namespace"
        (dictMerge [("namespace", "unknown")] [("namespace", "prod"), ("logs", "x")]) =
      match List.lookup "namespace" [("namespace", "prod"), ("logs", "x")] with
      | some v => some v
      | none => List.lookup "namespace" [("namespace", "unknown")])
    ∧ dictMerge [("namespace", "unknown")] [("namespace", "prod"), ("logs", "x")]
        = [("namespace", "prod"), ("logs", "x")]
    ∧ (render_prompt demoRegistry "k8s_log_analysis_v1"
        [("namespace", "prod"), ("logs", "x")]).toOption.map RenderedPrompt.messages
      = some [⟨"system", demoSystemBody⟩, ⟨"user", "ns=prod logs=x"⟩]
    ∧ strContains "ns=prod logs=x" "prod" = true
    ∧ strContains "ns=prod logs=x" "unknown" = false :=
  render_merge_override [("namespace", "unknown")] [("namespace", "prod"), ("logs", "x")]
    "namespace" (by decide)

/- ### C10 — extra caller keys enter the merged map and the variables hash -/

/-- C10: every caller-supplied entry is present in the merged map that
`render_prompt` hashes, even for keys declared nowhere and referenced by
neither body; concretely, adding the unused key `zz_extra` leaves the
messages and `rendered_hash` unchanged but changes `variables_hash`. -/
theorem render_variables_hash_extra_keys (opt vs : Dict) (k v : String)
    (hn : (dictKeys vs).Nodup) (hm : (k, v) ∈ vs) :
    List.lookup k (dictMerge opt vs) = some v
    ∧ (render_prompt extraKeyRegistry "p" [("logs", "x")]).toOption.map RenderedPrompt.messages
      = (render_prompt extraKeyRegistry "p"
          [("logs", "x"), ("zz_extra", "1")]).toOption.map RenderedPrompt.messages
    ∧ (render_prompt extraKeyRegistry "p" [("logs", "x")]).toOption.map RenderedPrompt.rendered_hash
      = (render_prompt extraKeyRegistry "p"
          [("logs", "x"), ("zz_extra", "1")]).toOption.map RenderedPrompt.rendered_hash
    ∧ (render_prompt extraKeyRegistry "p" [("logs", "x")]).toOption.map RenderedPrompt.variables_hash
      ≠ (render_prompt extraKeyRegistry "p"
          [("logs", "x"), ("zz_extra", "1")]).toOption.map RenderedPrompt.variables_hash := by
  refine ⟨?_, by decide, by decide, by decide⟩
  rw [lookup_dictMerge opt vs k hn, lookup_of_mem_nodup hn hm]

/-- C10 witness: a caller key absent from every declaration reaches the
merged map with the caller's value. -/
theorem render_variables_hash_extra_keys_witness :
    List.lookup "zz_extra" (dictMerge [("namespace", "unknown")] [("zz_extra", "1")]) = some "1"
    ∧ (render_prompt extraKeyRegistry "p" [("logs", "x")]).toOption.map RenderedPrompt.messages
      = (render_prompt extraKeyRegistry "p"
          [("logs", "x"), ("zz_extra", "1")]).toOption.map RenderedPrompt.messages
    ∧ (render_prompt extraKeyRegistry "p" [("logs", "x")]).toOption.map RenderedPrompt.rendered_hash
      = (render_prompt extraKeyRegistry "p"
          [("logs", "x"), ("zz_extra", "1")]).toOption.map RenderedPrompt.rendered_hash
    ∧ (render_prompt extraKeyRegistry "p" [("logs", "x")]).toOption.map RenderedPrompt.variables_hash
      ≠ (render_prompt extraKeyRegistry "p"
          [("logs", "x"), ("zz_extra", "1")]).toOption.map RenderedPrompt.variables_hash :=
  render_variables_hash_extra_keys [("namespace", "unknown")] [("zz_extra", "1")]
    "zz_extra" "1" (by decide) (by decide)

/- ### C3 — load failures -/

/-- A parse failure, a missing required field, or an id/stem mismatch
makes `load_prompt_file` raise some load error. -/
theorem load_prompt_file_error_cases (f : PromptFile)
    (h : f.parsed = none
      ∨ ∃ raw, f.parsed = some raw ∧
          (rawFieldsComplete raw = false ∨ ∃ i, raw.id? = some i ∧ i ≠ f.stem)) :
    ∃ e, load_prompt_file f = .error e := by
  rcases h with hp | ⟨raw, hp, hbad⟩
  · exact ⟨.parseFailure f.stem, by simp [load_prompt_file, hp]⟩
  · rcases hbad with hcomp | ⟨i, hi, hne⟩
    · rcases hid : raw.id? with _ | i
      · exact ⟨.missingField f.stem "id", by simp [load_prompt_file, hp, hid]⟩
      · by_cases hstem : i = f.stem
        · rcases hsys : raw.system? with _ | sysBody
          · exact ⟨.missingField f.stem "system",
              by simp [load_prompt_file, hp, hid, hstem, hsys]⟩
          · rcases husr : raw.user? with _ | usrBody
            · exact ⟨.missingField f.stem "user",
                by simp [load_prompt_file, hp, hid, hstem, hsys, husr]⟩
            · rcases hmd : raw.model_defaults? with _ | cfg
              · exact ⟨.missingField f.stem "model_defaults",
                  by simp [load_prompt_file, hp, hid, hstem, hsys, husr, hmd]⟩
              · rcases hdesc : raw.description? with _ | desc
                · exact ⟨.missingField f.stem "description",
                    by simp [load_prompt_file, hp, hid, hstem, hsys, husr, hmd, hdesc]⟩
                · rcases hins : raw.inputs? with _ | ins
                  · exact ⟨.missingField f.stem "inputs",
                      by simp [load_prompt_file, hp, hid, hstem, hsys, husr, hmd, hdesc, hins]⟩
                  · rcases hrq : ins.required? with _ | req
                    · exact ⟨.missingField f.stem "required",
                        by simp [load_prompt_file, hp, hid, hstem, hsys, husr, hmd, hdesc,
                          hins, hrq]⟩
                    · rcases hop : ins.optional? with _ | opt
                      · exact ⟨.missingField f.stem "optional",
                          by simp [load_prompt_file, hp, hid, hstem, hsys, husr, hmd, hdesc,
                            hins, hrq, hop]⟩
                      · exfalso
                        rw [rawFieldsComplete, hid, hsys, husr, hmd, hdesc, hins] at hcomp
                        simp [hrq, hop] at hcomp
        · exact ⟨.idMismatch f.stem f.stem i, by simp [load_prompt_file, hp, hid, hstem]⟩
    · exact ⟨.idMismatch f.stem f.stem i, by simp [load_prompt_file, hp, hi, hne]⟩

/-- Unfolding lemma: one monadic fold step of the registry loader. -/
theorem foldlM_load_cons (g : Registry → PromptFile → Except LoadError Registry)
    (init : Registry) (a : PromptFile) (l : List PromptFile) :
    List.foldlM g init (a :: l) = g init a >>= fun s => List.foldlM g s l := rfl

/-- If any file of the directory fails to load, the whole fold fails. -/
theorem load_registry_error_of_file_error (files : List PromptFile) (f : PromptFile)
    (init : Registry) (e : LoadError)
    (hf : f ∈ files) (he : load_prompt_file f = .error e) :
    ∃ e2, List.foldlM
        (fun reg g => (load_prompt_file g).map (fun t => regInsert reg t.id t))
        init files = .error e2 := by
  induction files generalizing init with
  | nil => cases hf
  | cons a rest ih =>
    rw [foldlM_load_cons]
    rcases hg : load_prompt_file a with eg | t
    · exact ⟨eg, rfl⟩
    · rcases List.mem_cons.mp hf with hfg | hfr
      · rw [hfg] at he
        rw [he] at hg
        exact Except.noConfusion hg
      · exact ih (regInsert init t.id t) hfr

/-- C3 counterexample: an unreadable (or missing) templates directory
does not make `load` fail — the source's `prompts_dir.glob("*.yaml")`
swallows the error and yields no files, so `load_prompt_registry`
returns an empty registry with no `LoadError`. -/
theorem load_prompt_registry_unreadable_ok :
    load_prompt_registry none = .ok []
    ∧ ∀ e, load_prompt_registry none ≠ .error e := by
  refine ⟨rfl, fun e hc => ?_⟩
  exact Except.noConfusion
    (show (Except.ok ([] : Registry) : Except LoadError Registry) = .error e from hc)

/-- C3 (amended): `load_prompt_registry` fails with a load error — and
hence returns no registry at all, so no file is registered under any
name — whenever some file fails to parse, or some parsed file lacks a
required field, or some parsed file's declared id differs from its
filename stem; an unreadable directory, by contrast, loads as an empty
registry (see the counterexample). -/
theorem load_prompt_registry_fails (dir : Option (List PromptFile))
    (h : ∃ files f, dir = some files ∧ f ∈ files ∧
          (f.parsed = none
            ∨ ∃ raw, f.parsed = some raw ∧
                (rawFieldsComplete raw = false ∨ ∃ i, raw.id? = some i ∧ i ≠ f.stem))) :
    (∃ e, load_prompt_registry dir = .error e)
    ∧ ∀ reg, load_prompt_registry dir ≠ .ok reg := by
  have herr : ∃ e, load_prompt_registry dir = .error e := by
    rcases h with ⟨files, f, hdir, hmem, hbad⟩
    rcases load_prompt_file_error_cases f hbad with ⟨e, he⟩
    rw [hdir]
    exact load_registry_error_of_file_error files f [] e hmem he
  refine ⟨herr, ?_⟩
  rcases herr with ⟨e, he⟩
  intro reg hc
  rw [he] at hc
  exact Except.noConfusion hc

/-- C3 witness: a directory holding `foo.yaml` that declares
`id: "bar"` fails to load, and in particular yields no registry. -/
theorem load_prompt_registry_fails_witness :
    (∃ e, load_prompt_registry (some [mismatchFile]) = .error e)
    ∧ ∀ reg, load_prompt_registry (some [mismatchFile]) ≠ .ok reg :=
  load_prompt_registry_fails (some [mismatchFile])
    ⟨[mismatchFile], mismatchFile, rfl, List.mem_singleton.mpr rfl,
      Or.inr ⟨mismatchRaw, rfl, Or.inr ⟨"bar", rfl, by decide⟩⟩⟩

end LogAgent
